/-
  Verification of the tiered AOD → PM2.5 calibration engine.

  Shallow embedding of:
    - src/processing/ensemble_model.py        (EnsembleModel.predict, get_model_info)
    - src/processing/ensemble_calibrator.py   (training-time weight derivation)
    - src/processing/advanced_feature_engineering.py (create_advanced_features)
    - src/calibration_api/app.py              (dispatch, forced-tier endpoints,
                                               per-tier handlers, response shape)

  Numbers are modelled as rationals (the Python code computes over floats;
  every claim under study is about the exact algebraic structure of the
  computations, not float rounding).  Fallible Python code (KeyError,
  ZeroDivisionError, AttributeError) is modelled with Option / error results.
-/
import Mathlib

namespace AodCal

/-! ## JSON-ish request/response values -/

/-- A parsed JSON request body: an ordered map from field name to number
(the calibration endpoints only consume numeric fields). -/
abbrev Obj := List (String × ℚ)

/-- Python `data[k]` lookup, as an Option (none models a KeyError). -/
def lookupKey (data : Obj) (k : String) : Option ℚ :=
  (data.find? (fun p => p.1 = k)).map (fun p => p.2)

/-- Extraction of the four required fields, in the order the handlers read
them (`satellite_aod`, `min_temp`, `max_temp`, `rainfall`); none when any
is missing (Python raises KeyError at the first missing one). -/
def lookup4 (data : Obj) : Option (ℚ × ℚ × ℚ × ℚ) :=
  match lookupKey data "satellite_aod", lookupKey data "min_temp",
        lookupKey data "max_temp", lookupKey data "rainfall" with
  | some a, some mn, some mx, some r => some (a, mn, mx, r)
  | _, _, _, _ => none

/-- A JSON response value: number, string, or the ensemble's weight map. -/
inductive JVal where
  | num (q : ℚ)
  | str (s : String)
  | wmap (w : List (String × ℚ))
deriving DecidableEq

/-- A handler response: 200 payload, or an error message with HTTP code. -/
inductive Resp where
  | ok (payload : List (String × JVal))
  | err (msg : String) (code : ℕ)
deriving DecidableEq

/-- Lookup of a key inside a response payload. -/
def lookupJ (p : List (String × JVal)) (k : String) : Option JVal :=
  (p.find? (fun q => q.1 = k)).map (fun q => q.2)

/-- The HTTP status code of a response (200 for ok). -/
def Resp.code : Resp → ℕ
  | .ok _ => 200
  | .err _ c => c

/-! ## Python `round(x, 2)` (banker's rounding to two decimals) -/

/-- Round-half-to-even to the nearest integer, as Python `round` does. -/
def roundHalfEven (q : ℚ) : ℤ :=
  let f := ⌊q⌋
  let r := q - (f : ℚ)
  if r < 1/2 then f
  else if 1/2 < r then f + 1
  else if f % 2 = 0 then f else f + 1

/-- Python `round(x, 2)`. -/
def round2 (q : ℚ) : ℚ := (roundHalfEven (q * 100) : ℚ) / 100

/-! ## Ensemble model (src/processing/ensemble_model.py) -/

/-- A per-learner held-out score record `{'r2': …, 'mae': …}`. -/
structure MScore where
  r2 : ℚ
  mae : ℚ
deriving DecidableEq

/-- `EnsembleModel.__init__`: base learners by name, weight map, shared
scaler, optional score record.  A learner is an opaque fitted regressor,
modelled as a function from a feature row to a prediction. -/
structure EnsembleModel where
  models : List (String × (List ℚ → ℚ))
  weights : List (String × ℚ)
  scaler : List ℚ → List ℚ
  scores : Option (List (String × MScore))

/-- Python dict lookup in the weight map (none models a KeyError). -/
def lookupW (w : List (String × ℚ)) (n : String) : Option ℚ :=
  (w.find? (fun p => p.1 = n)).map (fun p => p.2)

/-- The argument `X` of `EnsembleModel.predict`: either a numpy-style array
(which has a `.shape` attribute) or a plain Python list of rows (which does
not) — `hasattr(X, 'shape')` distinguishes exactly these two cases. -/
inductive PyRows where
  | array (rows : List (List ℚ))
  | pylist (rows : List (List ℚ))

/-- Line 12–15 of ensemble_model.py: `X` is scaled iff it has a `.shape`
attribute and `X.shape[1] == 4`; otherwise it is passed through as is
("Assume already scaled"). -/
def EnsembleModel.scaledInput (m : EnsembleModel) (X : PyRows) : List (List ℚ) :=
  match X with
  | .array rows =>
      if ((rows.head?).map List.length).getD 0 = 4 then rows.map m.scaler else rows
  | .pylist rows => rows

/-- `EnsembleModel.predict`: run every base learner on the (possibly)
scaled input, then return per row `sum(weights[name] * predictions[name]
for name in models.keys())`.  The sum iterates over the MODEL map's keys
and indexes the weight map, so a model whose name is missing from the
weight map raises a KeyError (none); a weight-map name with no model is
never consulted. -/
def EnsembleModel.predict (m : EnsembleModel) (X : PyRows) : Option (List ℚ) :=
  let rows := m.scaledInput X
  if m.models.all (fun nm => (lookupW m.weights nm.1).isSome) then
    some (rows.map (fun r =>
      (m.models.map (fun nm => (lookupW m.weights nm.1).getD 0 * nm.2 r)).sum))
  else none

/-! ## Training-time weight derivation (src/processing/ensemble_calibrator.py,
    lines 69–82) -/

/-- Python `max(model_scores.values(), key=lambda x: x['r2'])['r2']`:
the best held-out R² (none on an empty dict, where Python max raises). -/
def maxR2 : List (String × MScore) → Option ℚ
  | [] => none
  | p :: rest =>
      some (match maxR2 rest with
            | none => p.2.r2
            | some m => max p.2.r2 m)

/-- Line 76: raw weight `scores['r2'] / best_r2 if best_r2 > 0 else 0.25`
per learner. -/
def rawWeights (scores : List (String × MScore)) (best : ℚ) :
    List (String × ℚ) :=
  scores.map (fun p => (p.1, if 0 < best then p.2.r2 / best else (1/4 : ℚ)))

/-- Lines 69–82: the raw weights, then each divided by the raw total.
Returns none when Python would raise: empty score dict (max of empty), or
raw total equal to 0 (float division by zero). -/
def deriveEnsembleWeights (scores : List (String × MScore)) :
    Option (List (String × ℚ)) :=
  match maxR2 scores with
  | none => none
  | some best =>
      if ((rawWeights scores best).map (fun p => p.2)).sum = 0 then none
      else some ((rawWeights scores best).map (fun p =>
        (p.1, p.2 / ((rawWeights scores best).map (fun q => q.2)).sum)))

/-! ## Advanced feature engineering
    (src/processing/advanced_feature_engineering.py, create_advanced_features)

    The pipeline is modelled column-wise over the rational fragment: the
    transcendental columns (aod_log, aod_sqrt, the sin/cos encodings) and
    the wall-clock temporal columns (hour, month, …, derived from
    `pd.Timestamp.now()` on the serving path) are outside this fragment and
    outside every claim; the columns below are modelled exactly.  A cell
    that pandas leaves as NaN is an Option none. -/

/-- One input row of the serving path's single-row DataFrame
(`satellite_aod`, `min_temp`, `max_temp`, `rainfall`; the humidity column
is absent, as in app.py's request construction, so the synthetic-humidity
branch of create_advanced_features runs). -/
structure ObsRow where
  satellite_aod : ℚ
  min_temp : ℚ
  max_temp : ℚ
  rainfall : ℚ
deriving DecidableEq

/-- Mean of a list (pandas mean; only ever applied to nonempty windows,
thanks to `min_periods=1`). -/
def listMean (xs : List ℚ) : ℚ := xs.sum / (xs.length : ℚ)

/-- The trailing window of width at most `w` ending at index `i`. -/
def windowAt (w : ℕ) (xs : List ℚ) (i : ℕ) : List ℚ :=
  (xs.take (i + 1)).drop (i + 1 - w)

/-- `series.rolling(w, min_periods=1).mean()`. -/
def rollingMeanCol (w : ℕ) (xs : List ℚ) : List ℚ :=
  (List.range xs.length).map (fun i => listMean (windowAt w xs i))

/-- Sample variance with `ddof=1` (pandas default): NaN (none) for fewer
than 2 samples.  `series.rolling(w, min_periods=1).std()` is the square
root of this; the claims only consult its definedness and its zero/nonzero
structure, which the square root preserves. -/
def sampleVar (xs : List ℚ) : Option ℚ :=
  if xs.length < 2 then none
  else some (((xs.map (fun x => (x - listMean xs) ^ 2)).sum) / ((xs.length : ℚ) - 1))

/-- The rolling sample-variance column (square of the rolling std column). -/
def rollingVarCol (w : ℕ) (xs : List ℚ) : List (Option ℚ) :=
  (List.range xs.length).map (fun i => sampleVar (windowAt w xs i))

/-- `series.shift(lag)`: result[i] = xs[i-lag] for i ≥ lag, NaN otherwise. -/
def shiftLagCol (lag : ℕ) (xs : List ℚ) : List (Option ℚ) :=
  (List.range xs.length).map (fun i => if lag ≤ i then xs[i - lag]? else none)

/-- `fillna(method='bfill')` on one column: each NaN takes the next defined
value below it (a trailing run of NaN stays NaN). -/
def bfillCol : List (Option ℚ) → List (Option ℚ)
  | [] => []
  | x :: rest =>
      let r := bfillCol rest
      (match x with
       | some v => some v
       | none => (r.head?).getD none) :: r

/-- `fillna(method='ffill')` on one column, carrying the last defined value. -/
def ffillAux (carry : Option ℚ) : List (Option ℚ) → List (Option ℚ)
  | [] => []
  | x :: rest =>
      let cur := match x with
        | some v => some v
        | none => carry
      cur :: ffillAux cur rest

/-- `fillna(method='ffill')` on one column. -/
def ffillCol : List (Option ℚ) → List (Option ℚ) := ffillAux none

/-- Line 92: `df.fillna(method='bfill').fillna(method='ffill')`, per column. -/
def fillBF (xs : List (Option ℚ)) : List (Option ℚ) := ffillCol (bfillCol xs)

/-- One output row of create_advanced_features, restricted to the rational
columns the model tiers and the claims consume.  Columns that can still be
NaN after the in-frame bfill/ffill (lags and volatilities) are Options. -/
structure FeatRow where
  satellite_aod : ℚ
  min_temp : ℚ
  max_temp : ℚ
  rainfall : ℚ
  temp_range : ℚ
  avg_temp : ℚ
  humidity : ℚ
  aod_squared : ℚ
  aod_temp_interaction : ℚ
  aod_rainfall_interaction : ℚ
  aod_lag_1 : Option ℚ
  aod_lag_2 : Option ℚ
  aod_lag_3 : Option ℚ
  aod_lag_6 : Option ℚ
  aod_lag_12 : Option ℚ
  aod_lag_24 : Option ℚ
  aod_rolling_3 : ℚ
  aod_rolling_6 : ℚ
  aod_rolling_12 : ℚ
  aod_rolling_24 : ℚ
  temp_rolling_3 : ℚ
  temp_rolling_6 : ℚ
  temp_rolling_12 : ℚ
  temp_rolling_24 : ℚ
  aod_volatility_3h : Option ℚ
  temp_volatility_6h : Option ℚ
deriving DecidableEq

/-- Line 52–53: synthetic humidity
`np.clip(50 + (max_temp - 25) * -1.5 + rainfall * 2, 20, 90)`
(np.clip(x, lo, hi) = min(max(x, lo), hi)). -/
def humiditySynth (max_temp rainfall : ℚ) : ℚ :=
  min (max (50 + (max_temp - 25) * (-(3 : ℚ) / 2) + rainfall * 2) 20) 90

/-- create_advanced_features on a time-ordered list of rows without a
humidity column (the serving path: one row, `date = now`; sorting a
single-row frame by date is the identity).  Lag and volatility columns go
through the frame-level bfill/ffill of line 92; the plain rational columns
contain no NaN, so that fill leaves them unchanged. -/
def create_advanced_features (rows : List ObsRow) : List FeatRow :=
  let aod := rows.map (fun o => o.satellite_aod)
  let avgT := rows.map (fun o => (o.max_temp + o.min_temp) / 2)
  let lag1 := fillBF (shiftLagCol 1 aod)
  let lag2 := fillBF (shiftLagCol 2 aod)
  let lag3 := fillBF (shiftLagCol 3 aod)
  let lag6 := fillBF (shiftLagCol 6 aod)
  let lag12 := fillBF (shiftLagCol 12 aod)
  let lag24 := fillBF (shiftLagCol 24 aod)
  let vol3 := fillBF (rollingVarCol 3 aod)
  let vol6 := fillBF (rollingVarCol 6 avgT)
  let ar3 := rollingMeanCol 3 aod
  let ar6 := rollingMeanCol 6 aod
  let ar12 := rollingMeanCol 12 aod
  let ar24 := rollingMeanCol 24 aod
  let tr3 := rollingMeanCol 3 avgT
  let tr6 := rollingMeanCol 6 avgT
  let tr12 := rollingMeanCol 12 avgT
  let tr24 := rollingMeanCol 24 avgT
  (List.range rows.length).map (fun i =>
    let o := rows.getD i ⟨0, 0, 0, 0⟩
    { satellite_aod := o.satellite_aod
      min_temp := o.min_temp
      max_temp := o.max_temp
      rainfall := o.rainfall
      temp_range := o.max_temp - o.min_temp
      avg_temp := (o.max_temp + o.min_temp) / 2
      humidity := humiditySynth o.max_temp o.rainfall
      aod_squared := o.satellite_aod ^ 2
      aod_temp_interaction := o.satellite_aod * ((o.max_temp + o.min_temp) / 2)
      aod_rainfall_interaction := o.satellite_aod * (1 + o.rainfall)
      aod_lag_1 := lag1.getD i none
      aod_lag_2 := lag2.getD i none
      aod_lag_3 := lag3.getD i none
      aod_lag_6 := lag6.getD i none
      aod_lag_12 := lag12.getD i none
      aod_lag_24 := lag24.getD i none
      aod_rolling_3 := ar3.getD i 0
      aod_rolling_6 := ar6.getD i 0
      aod_rolling_12 := ar12.getD i 0
      aod_rolling_24 := ar24.getD i 0
      temp_rolling_3 := tr3.getD i 0
      temp_rolling_6 := tr6.getD i 0
      temp_rolling_12 := tr12.getD i 0
      temp_rolling_24 := tr24.getD i 0
      aod_volatility_3h := vol3.getD i none
      temp_volatility_6h := vol6.getD i none })

/-- The Dispatcher's consumption-boundary zero-fill
(`test_advanced[advanced_features].fillna(0)` in app.py). -/
def zfill (o : Option ℚ) : ℚ := o.getD 0

/-- Column selection by feature name (`test_advanced[advanced_features]`):
some (cell) when the column exists in the modelled fragment, none models
the KeyError pandas raises for an absent column. -/
def FeatRow.getCol (fr : FeatRow) (name : String) : Option (Option ℚ) :=
  if name = "satellite_aod" then some (some fr.satellite_aod)
  else if name = "min_temp" then some (some fr.min_temp)
  else if name = "max_temp" then some (some fr.max_temp)
  else if name = "rainfall" then some (some fr.rainfall)
  else if name = "temp_range" then some (some fr.temp_range)
  else if name = "avg_temp" then some (some fr.avg_temp)
  else if name = "humidity" then some (some fr.humidity)
  else if name = "aod_squared" then some (some fr.aod_squared)
  else if name = "aod_temp_interaction" then some (some fr.aod_temp_interaction)
  else if name = "aod_rainfall_interaction" then some (some fr.aod_rainfall_interaction)
  else if name = "aod_lag_1" then some fr.aod_lag_1
  else if name = "aod_lag_2" then some fr.aod_lag_2
  else if name = "aod_lag_3" then some fr.aod_lag_3
  else if name = "aod_lag_6" then some fr.aod_lag_6
  else if name = "aod_lag_12" then some fr.aod_lag_12
  else if name = "aod_lag_24" then some fr.aod_lag_24
  else if name = "aod_rolling_3" then some (some fr.aod_rolling_3)
  else if name = "aod_rolling_6" then some (some fr.aod_rolling_6)
  else if name = "aod_rolling_12" then some (some fr.aod_rolling_12)
  else if name = "aod_rolling_24" then some (some fr.aod_rolling_24)
  else if name = "temp_rolling_3" then some (some fr.temp_rolling_3)
  else if name = "temp_rolling_6" then some (some fr.temp_rolling_6)
  else if name = "temp_rolling_12" then some (some fr.temp_rolling_12)
  else if name = "temp_rolling_24" then some (some fr.temp_rolling_24)
  else if name = "aod_volatility_3h" then some fr.aod_volatility_3h
  else if name = "temp_volatility_6h" then some fr.temp_volatility_6h
  else none

/-- `test_advanced[advanced_features].fillna(0)` for one row: the selected
feature values in list order, NaN cells zero-filled; none when a requested
column is absent (KeyError). -/
def allFeatures (fr : FeatRow) : List String → Option (List ℚ)
  | [] => some []
  | n :: ns =>
      match fr.getCol n with
      | some v => (allFeatures fr ns).map (fun rest => zfill v :: rest)
      | none => none

/-! ## The serving app (src/calibration_api/app.py) -/

/-- The process-wide model globals of app.py after `load_models()`: each is
None (none) when its artifact failed to load.  A fitted regressor is a
function from a feature row to a prediction; a fitted scaler is a function
on feature rows. -/
structure Registry where
  basic_model : Option (List ℚ → ℚ)
  basic_scaler : Option (List ℚ → List ℚ)
  ensemble_model : Option EnsembleModel
  advanced_model : Option (List ℚ → ℚ)
  advanced_scaler : Option (List ℚ → List ℚ)
  advanced_features : Option (List String)

/-- Python truthiness of `basic_model and basic_scaler` (model objects are
truthy whenever not None). -/
def basicAvailable (reg : Registry) : Bool :=
  reg.basic_model.isSome && reg.basic_scaler.isSome

/-- Python truthiness of `ensemble_model`. -/
def ensembleAvailable (reg : Registry) : Bool :=
  reg.ensemble_model.isSome

/-- Python truthiness of `advanced_model and advanced_scaler and
advanced_features`; the feature list is a plain list, so an empty loaded
list is falsy. -/
def advancedAvailable (reg : Registry) : Bool :=
  reg.advanced_model.isSome && reg.advanced_scaler.isSome &&
    (match reg.advanced_features with
     | none => false
     | some l => !l.isEmpty)

/-- The three calibration tiers. -/
inductive Tier where
  | basic
  | ensemble
  | advanced
deriving DecidableEq

/-- The `source` string each tier's handler puts in its response. -/
def sourceName : Tier → String
  | .basic => "basic_model"
  | .ensemble => "ensemble_model"
  | .advanced => "advanced_model"

/-- `best_tier`: the `default_model` chain of the health endpoint
(app.py lines 234–239), advanced > ensemble > basic > none, with the same
truthiness tests as the dispatch chain. -/
def bestTier (reg : Registry) : Option Tier :=
  if advancedAvailable reg then some .advanced
  else if ensembleAvailable reg then some .ensemble
  else if basicAvailable reg then some .basic
  else none

/-- `calibrate_with_basic_model` (lines 110–130): read the four fields
(KeyError → caught → 500), scale, predict, respond.  The except-clause's
message is `f'Basic model error: {str(e)}'`; the cause text is abridged. -/
def calibrate_with_basic_model (reg : Registry) (data : Obj) : Resp :=
  match lookup4 data with
  | none => .err "Basic model error: KeyError" 500
  | some (a, mn, mx, r) =>
      match reg.basic_model, reg.basic_scaler with
      | some m, some sc =>
          .ok [("calibrated_pm25", .num (round2 (m (sc [a, mn, mx, r])))),
               ("source", .str "basic_model"),
               ("model_version", .str "1.0"),
               ("confidence", .str "standard")]
      | _, _ => .err "Basic model error: model not loaded" 500

/-- `calibrate_with_ensemble_model` (lines 132–153): read the four fields,
call `ensemble_model.predict([features])[0]` (a plain Python list input),
attach `get_model_info()['weights']`. -/
def calibrate_with_ensemble_model (reg : Registry) (data : Obj) : Resp :=
  match lookup4 data with
  | none => .err "Ensemble model error: KeyError" 500
  | some (a, mn, mx, r) =>
      match reg.ensemble_model with
      | none => .err "Ensemble model error: model not loaded" 500
      | some em =>
          match em.predict (.pylist [[a, mn, mx, r]]) with
          | some (v :: _) =>
              .ok [("calibrated_pm25", .num (round2 v)),
                   ("source", .str "ensemble_model"),
                   ("model_version", .str "2.0"),
                   ("confidence", .str "high"),
                   ("ensemble_weights", .wmap em.weights)]
          | _ => .err "Ensemble model error: KeyError" 500

/-- `calibrate_with_advanced_model` (lines 155–184): build the single-row
frame from the four fields, run create_advanced_features, select the
persisted feature list, zero-fill, scale, predict. -/
def calibrate_with_advanced_model (reg : Registry) (data : Obj) : Resp :=
  match lookup4 data with
  | none => .err "Advanced model error: KeyError" 500
  | some (a, mn, mx, r) =>
      match reg.advanced_model, reg.advanced_scaler, reg.advanced_features with
      | some m, some sc, some feats =>
          match create_advanced_features [⟨a, mn, mx, r⟩] with
          | [fr] =>
              match allFeatures fr feats with
              | some xs =>
                  .ok [("calibrated_pm25", .num (round2 (m (sc xs)))),
                       ("source", .str "advanced_model"),
                       ("model_version", .str "3.0"),
                       ("confidence", .str "very_high"),
                       ("features_used", .num (feats.length : ℚ))]
              | none => .err "Advanced model error: KeyError" 500
          | _ => .err "Advanced model error: bad frame" 500
      | _, _, _ => .err "Advanced model error: model not loaded" 500

/-- The handler each tier's branch of the dispatcher calls. -/
def tierHandler : Tier → Registry → Obj → Resp
  | .basic => calibrate_with_basic_model
  | .ensemble => calibrate_with_ensemble_model
  | .advanced => calibrate_with_advanced_model

/-- Python truthiness of the parsed body: `request.get_json()` gives None
(unparseable/absent body) or a dict; `if not data` rejects both None and
the empty dict. -/
def truthyBody : Option Obj → Bool
  | none => false
  | some data => !data.isEmpty

/-- POST /calibrate (`calibrate_aod`, lines 94–108): reject a falsy body
with 400, then dispatch down the advanced > ensemble > basic chain, else
500 `No models available`. -/
def calibrate_aod (reg : Registry) (body : Option Obj) : Resp :=
  if truthyBody body = false then .err "No JSON data provided" 400
  else
    let data := body.getD []
    if advancedAvailable reg then calibrate_with_advanced_model reg data
    else if ensembleAvailable reg then calibrate_with_ensemble_model reg data
    else if basicAvailable reg then calibrate_with_basic_model reg data
    else .err "No models available" 500

/-- POST /calibrate/basic (lines 186–196). -/
def calibrate_basic (reg : Registry) (body : Option Obj) : Resp :=
  if truthyBody body = false then .err "No JSON data provided" 400
  else if !basicAvailable reg then .err "Basic model not available" 500
  else calibrate_with_basic_model reg (body.getD [])

/-- POST /calibrate/ensemble (lines 198–208). -/
def calibrate_ensemble (reg : Registry) (body : Option Obj) : Resp :=
  if truthyBody body = false then .err "No JSON data provided" 400
  else if !ensembleAvailable reg then .err "Ensemble model not available" 500
  else calibrate_with_ensemble_model reg (body.getD [])

/-- POST /calibrate/advanced (lines 210–220). -/
def calibrate_advanced (reg : Registry) (body : Option Obj) : Resp :=
  if truthyBody body = false then .err "No JSON data provided" 400
  else if !advancedAvailable reg then .err "Advanced model not available" 500
  else calibrate_with_advanced_model reg (body.getD [])

/-! ## The spec's reading of ensemble scaling, for comparison with the code -/

/-- Modelled from the spec's words for C3 ("rows are assumed unscaled
4-feature tuples" and are "first transformed by the ensemble's shared
scaler"): every 4-feature row is scaled before prediction, regardless of
whether it arrives as an array or a plain list. -/
def EnsembleModel.predictSpecWords (m : EnsembleModel) (X : PyRows) : Option (List ℚ) :=
  let rows := match X with
    | .array rs => rs
    | .pylist rs => rs
  let scaled := rows.map (fun r => if r.length = 4 then m.scaler r else r)
  if m.models.all (fun nm => (lookupW m.weights nm.1).isSome) then
    some (scaled.map (fun r =>
      (m.models.map (fun nm => (lookupW m.weights nm.1).getD 0 * nm.2 r)).sum))
  else none

/-! ## Helper lemmas and shared concrete fixtures -/

/-- A registry in which only the basic tier loaded (identity scaler, a
sum-of-features regressor). -/
def regBasicOnly : Registry :=
  ⟨some (fun xs => xs.sum), some (fun xs => xs), none, none, none, none⟩

/-- A request body carrying all four required fields. -/
def dataFull : Obj :=
  [("satellite_aod", 300), ("min_temp", 25), ("max_temp", 35), ("rainfall", 0)]

lemma basic_ok_source (reg : Registry) (data : Obj) (p : List (String × JVal))
    (h : calibrate_with_basic_model reg data = .ok p) :
    lookupJ p "source" = some (.str "basic_model") := by
  unfold calibrate_with_basic_model at h
  split at h
  · simp at h
  · split at h
    · cases h
      simp [lookupJ]
    · simp at h

lemma ensemble_ok_source (reg : Registry) (data : Obj) (p : List (String × JVal))
    (h : calibrate_with_ensemble_model reg data = .ok p) :
    lookupJ p "source" = some (.str "ensemble_model") := by
  unfold calibrate_with_ensemble_model at h
  split at h
  · simp at h
  · split at h
    · simp at h
    · split at h
      · cases h
        simp [lookupJ]
      · simp at h

lemma advanced_ok_source (reg : Registry) (data : Obj) (p : List (String × JVal))
    (h : calibrate_with_advanced_model reg data = .ok p) :
    lookupJ p "source" = some (.str "advanced_model") := by
  unfold calibrate_with_advanced_model at h
  split at h
  · simp at h
  · split at h
    · split at h
      · split at h
        · cases h
          simp [lookupJ]
        · simp at h
      · simp at h
    · simp at h

lemma tier_ok_source (t : Tier) (reg : Registry) (data : Obj)
    (p : List (String × JVal)) (h : tierHandler t reg data = .ok p) :
    lookupJ p "source" = some (.str (sourceName t)) := by
  cases t with
  | basic => exact basic_ok_source reg data p h
  | ensemble => exact ensemble_ok_source reg data p h
  | advanced => exact advanced_ok_source reg data p h

/-- The dispatch chain of `calibrate_aod` agrees, branch for branch, with
the `best_tier` chain of the health endpoint. -/
lemma dispatch_eq (reg : Registry) (data : Obj) (hne : data ≠ []) :
    calibrate_aod reg (some data) =
      (match bestTier reg with
       | none => .err "No models available" 500
       | some t => tierHandler t reg data) := by
  obtain ⟨x, xs, rfl⟩ : ∃ x xs, data = x :: xs := by
    cases data with
    | nil => exact absurd rfl hne
    | cons x xs => exact ⟨x, xs, rfl⟩
  by_cases ha : advancedAvailable reg <;>
    by_cases he : ensembleAvailable reg <;>
      by_cases hb : basicAvailable reg <;>
        simp [calibrate_aod, bestTier, truthyBody, tierHandler, ha, he, hb]

/-- C1: For every request with a parseable non-empty JSON body and no
forced tier, `calibrate` selects the tier in strict priority order
advanced > ensemble > basic (each tier available only when all of its
sub-artifacts loaded — the availability predicates conjoin every
sub-artifact), the response it returns is exactly the selected tier's
handler's response, any 200 payload carries that tier as `source`, and
when no tier is loaded the endpoint fails with the 500
`No models available` error instead of producing a value. -/
theorem C1_dispatch_follows_best_tier (reg : Registry) (data : Obj)
    (hne : data ≠ []) :
    (bestTier reg = none →
      calibrate_aod reg (some data) = .err "No models available" 500) ∧
    (∀ t : Tier, bestTier reg = some t →
      calibrate_aod reg (some data) = tierHandler t reg data ∧
      ∀ p, calibrate_aod reg (some data) = .ok p →
        lookupJ p "source" = some (.str (sourceName t))) := by
  refine ⟨fun h => ?_, fun t ht => ?_⟩
  · rw [dispatch_eq reg data hne, h]
  · have hd : calibrate_aod reg (some data) = tierHandler t reg data := by
      have h0 := dispatch_eq reg data hne
      rw [ht] at h0
      exact h0
    exact ⟨hd, fun p hp => tier_ok_source t reg data p (hd.symm.trans hp)⟩

/-- Witness for C1: with only the basic tier loaded and a full body, the
dispatcher serves exactly the basic handler's response. -/
theorem C1_dispatch_follows_best_tier_witness :
    calibrate_aod regBasicOnly (some dataFull) =
      tierHandler .basic regBasicOnly dataFull :=
  ((C1_dispatch_follows_best_tier regBasicOnly dataFull (by simp [dataFull])).2
    .basic (by simp [bestTier, advancedAvailable, ensembleAvailable,
      basicAvailable, regBasicOnly])).1

/-- C10: A body that parses to the empty JSON object is rejected by every
calibration endpoint with the same 400 `No JSON data provided` error as a
missing body: the check is on falsiness, and an empty-but-present object
never reaches feature derivation or prediction. -/
theorem C10_empty_object_rejected (reg : Registry) :
    calibrate_aod reg (some []) = .err "No JSON data provided" 400 ∧
    calibrate_aod reg none = .err "No JSON data provided" 400 ∧
    calibrate_basic reg (some []) = .err "No JSON data provided" 400 ∧
    calibrate_basic reg none = .err "No JSON data provided" 400 ∧
    calibrate_ensemble reg (some []) = .err "No JSON data provided" 400 ∧
    calibrate_ensemble reg none = .err "No JSON data provided" 400 ∧
    calibrate_advanced reg (some []) = .err "No JSON data provided" 400 ∧
    calibrate_advanced reg none = .err "No JSON data provided" 400 := by
  refine ⟨?_, ?_, ?_, ?_, ?_, ?_, ?_, ?_⟩ <;>
    simp [calibrate_aod, calibrate_basic, calibrate_ensemble,
      calibrate_advanced, truthyBody]

/-- Witness for C10: the rejection at a concrete registry. -/
theorem C10_empty_object_rejected_witness :
    calibrate_aod regBasicOnly (some []) = .err "No JSON data provided" 400 :=
  (C10_empty_object_rejected regBasicOnly).1

/-- C6: For every forced-tier request with a truthy body: if the named
tier's artifacts are not fully loaded, the endpoint fails with that tier's
distinct 500 `<Tier> model not available` error; if the tier is available,
the response is exactly that tier's handler's response (never another
tier's), and any 200 payload names that tier as `source`. -/
theorem C6_forced_tier (reg : Registry) (data : Obj) (hne : data ≠ []) :
    (basicAvailable reg = false →
      calibrate_basic reg (some data) = .err "Basic model not available" 500) ∧
    (basicAvailable reg = true →
      calibrate_basic reg (some data) = calibrate_with_basic_model reg data) ∧
    (ensembleAvailable reg = false →
      calibrate_ensemble reg (some data) = .err "Ensemble model not available" 500) ∧
    (ensembleAvailable reg = true →
      calibrate_ensemble reg (some data) = calibrate_with_ensemble_model reg data) ∧
    (advancedAvailable reg = false →
      calibrate_advanced reg (some data) = .err "Advanced model not available" 500) ∧
    (advancedAvailable reg = true →
      calibrate_advanced reg (some data) = calibrate_with_advanced_model reg data) ∧
    (∀ p, calibrate_basic reg (some data) = .ok p →
      lookupJ p "source" = some (.str "basic_model")) ∧
    (∀ p, calibrate_ensemble reg (some data) = .ok p →
      lookupJ p "source" = some (.str "ensemble_model")) ∧
    (∀ p, calibrate_advanced reg (some data) = .ok p →
      lookupJ p "source" = some (.str "advanced_model")) := by
  obtain ⟨x, xs, rfl⟩ : ∃ x xs, data = x :: xs := by
    cases data with
    | nil => exact absurd rfl hne
    | cons x xs => exact ⟨x, xs, rfl⟩
  refine ⟨fun h => by simp [calibrate_basic, truthyBody, h],
    fun h => by simp [calibrate_basic, truthyBody, h],
    fun h => by simp [calibrate_ensemble, truthyBody, h],
    fun h => by simp [calibrate_ensemble, truthyBody, h],
    fun h => by simp [calibrate_advanced, truthyBody, h],
    fun h => by simp [calibrate_advanced, truthyBody, h],
    fun p hp => ?_, fun p hp => ?_, fun p hp => ?_⟩
  · by_cases h : basicAvailable reg
    · exact basic_ok_source reg _ p (by
        simpa [calibrate_basic, truthyBody, h] using hp)
    · simp [calibrate_basic, truthyBody, h] at hp
  · by_cases h : ensembleAvailable reg
    · exact ensemble_ok_source reg _ p (by
        simpa [calibrate_ensemble, truthyBody, h] using hp)
    · simp [calibrate_ensemble, truthyBody, h] at hp
  · by_cases h : advancedAvailable reg
    · exact advanced_ok_source reg _ p (by
        simpa [calibrate_advanced, truthyBody, h] using hp)
    · simp [calibrate_advanced, truthyBody, h] at hp

/-- Witness for C6: with only the basic tier loaded, forcing basic serves
the basic handler and forcing ensemble fails with its distinct error. -/
theorem C6_forced_tier_witness :
    calibrate_basic regBasicOnly (some dataFull) =
      calibrate_with_basic_model regBasicOnly dataFull ∧
    calibrate_ensemble regBasicOnly (some dataFull) =
      .err "Ensemble model not available" 500 :=
  ⟨(C6_forced_tier regBasicOnly dataFull (by simp [dataFull])).2.1
      (by simp [basicAvailable, regBasicOnly]),
   (C6_forced_tier regBasicOnly dataFull (by simp [dataFull])).2.2.1
      (by simp [ensembleAvailable, regBasicOnly])⟩

/-- The closed form of the single-observation feature row: rolling means
collapse to the current value, lags and volatilities stay undefined. -/
def advRowSingle (o : ObsRow) : FeatRow :=
  { satellite_aod := o.satellite_aod
    min_temp := o.min_temp
    max_temp := o.max_temp
    rainfall := o.rainfall
    temp_range := o.max_temp - o.min_temp
    avg_temp := (o.max_temp + o.min_temp) / 2
    humidity := humiditySynth o.max_temp o.rainfall
    aod_squared := o.satellite_aod ^ 2
    aod_temp_interaction := o.satellite_aod * ((o.max_temp + o.min_temp) / 2)
    aod_rainfall_interaction := o.satellite_aod * (1 + o.rainfall)
    aod_lag_1 := none
    aod_lag_2 := none
    aod_lag_3 := none
    aod_lag_6 := none
    aod_lag_12 := none
    aod_lag_24 := none
    aod_rolling_3 := o.satellite_aod
    aod_rolling_6 := o.satellite_aod
    aod_rolling_12 := o.satellite_aod
    aod_rolling_24 := o.satellite_aod
    temp_rolling_3 := (o.max_temp + o.min_temp) / 2
    temp_rolling_6 := (o.max_temp + o.min_temp) / 2
    temp_rolling_12 := (o.max_temp + o.min_temp) / 2
    temp_rolling_24 := (o.max_temp + o.min_temp) / 2
    aod_volatility_3h := none
    temp_volatility_6h := none }

lemma create_single (o : ObsRow) :
    create_advanced_features [o] = [advRowSingle o] := by
  simp [create_advanced_features, advRowSingle, shiftLagCol, rollingMeanCol,
    rollingVarCol, windowAt, listMean, sampleVar, fillBF, bfillCol, ffillCol,
    ffillAux, List.range_succ]

/-- C5 counterexample: a present body missing a required field (here
everything but `satellite_aod`) is NOT rejected with the 400 bad-input
error; the KeyError surfaces as the selected tier's 500 error. -/
theorem C5_counterexample :
    calibrate_aod regBasicOnly (some [("satellite_aod", 300)]) =
      .err "Basic model error: KeyError" 500 ∧
    (calibrate_aod regBasicOnly (some [("satellite_aod", 300)])).code ≠ 400 := by
  have h : calibrate_aod regBasicOnly (some [("satellite_aod", 300)]) =
      .err "Basic model error: KeyError" 500 := by
    simp [calibrate_aod, truthyBody, advancedAvailable, ensembleAvailable,
      basicAvailable, regBasicOnly, calibrate_with_basic_model, lookup4, lookupKey]
  exact ⟨h, by rw [h]; simp [Resp.code]⟩

/-- C5 (amended): a missing or empty body is rejected with the 400
`No JSON data provided` error before any tier runs; a present body missing
one of the four required numeric fields instead raises a KeyError inside
the selected tier's handler, which surfaces it as that tier's 500 error.
In neither case is a prediction produced. -/
theorem C5_invalid_input (reg : Registry) (data : Obj) (t : Tier) :
    calibrate_aod reg none = .err "No JSON data provided" 400 ∧
    calibrate_aod reg (some []) = .err "No JSON data provided" 400 ∧
    (data ≠ [] → lookup4 data = none → bestTier reg = some t →
      ∃ msg, calibrate_aod reg (some data) = .err msg 500) := by
  refine ⟨by simp [calibrate_aod, truthyBody],
    by simp [calibrate_aod, truthyBody], fun hne h4 ht => ?_⟩
  have hd : calibrate_aod reg (some data) = tierHandler t reg data := by
    have h0 := dispatch_eq reg data hne
    rw [ht] at h0
    exact h0
  cases t with
  | basic =>
      exact ⟨"Basic model error: KeyError", by
        rw [hd]; simp [tierHandler, calibrate_with_basic_model, h4]⟩
  | ensemble =>
      exact ⟨"Ensemble model error: KeyError", by
        rw [hd]; simp [tierHandler, calibrate_with_ensemble_model, h4]⟩
  | advanced =>
      exact ⟨"Advanced model error: KeyError", by
        rw [hd]; simp [tierHandler, calibrate_with_advanced_model, h4]⟩

/-- Witness for C5 (amended): the missing-field request of the
counterexample indeed lands in the 500 branch. -/
theorem C5_invalid_input_witness :
    ∃ msg, calibrate_aod regBasicOnly (some [("satellite_aod", 300)]) =
      .err msg 500 :=
  (C5_invalid_input regBasicOnly [("satellite_aod", 300)] .basic).2.2
    (by simp)
    (by simp [lookup4, lookupKey])
    (by simp [bestTier, advancedAvailable, ensembleAvailable, basicAvailable,
      regBasicOnly])

/-- C9: every successful response carries the value rounded to 2 decimals,
the tier's `source`, the fixed per-tier version string
("1.0"/"2.0"/"3.0"), the per-tier confidence label
(standard/high/very_high), and the tier-specific extra (weight map for
ensemble, count of consumed features for advanced; basic has none). -/
theorem C9_response_normalization (reg : Registry) (data : Obj)
    (a mn mx r : ℚ) (h4 : lookup4 data = some (a, mn, mx, r)) :
    (∀ m sc, reg.basic_model = some m → reg.basic_scaler = some sc →
      calibrate_with_basic_model reg data =
        .ok [("calibrated_pm25", .num (round2 (m (sc [a, mn, mx, r])))),
             ("source", .str "basic_model"),
             ("model_version", .str "1.0"),
             ("confidence", .str "standard")]) ∧
    (∀ em v vs, reg.ensemble_model = some em →
      em.predict (.pylist [[a, mn, mx, r]]) = some (v :: vs) →
      calibrate_with_ensemble_model reg data =
        .ok [("calibrated_pm25", .num (round2 v)),
             ("source", .str "ensemble_model"),
             ("model_version", .str "2.0"),
             ("confidence", .str "high"),
             ("ensemble_weights", .wmap em.weights)]) ∧
    (∀ m sc feats fr xs, reg.advanced_model = some m →
      reg.advanced_scaler = some sc → reg.advanced_features = some feats →
      create_advanced_features [⟨a, mn, mx, r⟩] = [fr] →
      allFeatures fr feats = some xs →
      calibrate_with_advanced_model reg data =
        .ok [("calibrated_pm25", .num (round2 (m (sc xs)))),
             ("source", .str "advanced_model"),
             ("model_version", .str "3.0"),
             ("confidence", .str "very_high"),
             ("features_used", .num (feats.length : ℚ))]) := by
  refine ⟨fun m sc hm hsc => ?_, fun em v vs hem hpred => ?_,
    fun m sc feats fr xs hm hsc hf hcf hall => ?_⟩
  · simp [calibrate_with_basic_model, h4, hm, hsc]
  · simp [calibrate_with_ensemble_model, h4, hem, hpred]
  · simp [calibrate_with_advanced_model, h4, hm, hsc, hf, hcf, hall]

/-- A one-member ensemble fixture (identity scaler, sum regressor). -/
def emOne : EnsembleModel :=
  ⟨[("gb", fun xs => xs.sum)], [("gb", 1)], fun xs => xs, none⟩

/-- A registry in which all three tiers loaded. -/
def regAll : Registry :=
  ⟨some (fun xs => xs.sum), some (fun xs => xs), some emOne,
   some (fun xs => xs.sum), some (fun xs => xs),
   some ["satellite_aod", "avg_temp"]⟩

/-- Witness for C9: concrete responses of all three tiers on the canonical
observation, with every contract field in place. -/
theorem C9_response_normalization_witness :
    calibrate_with_basic_model regAll dataFull =
      .ok [("calibrated_pm25", .num 360), ("source", .str "basic_model"),
           ("model_version", .str "1.0"), ("confidence", .str "standard")] ∧
    calibrate_with_ensemble_model regAll dataFull =
      .ok [("calibrated_pm25", .num 360), ("source", .str "ensemble_model"),
           ("model_version", .str "2.0"), ("confidence", .str "high"),
           ("ensemble_weights", .wmap [("gb", 1)])] ∧
    calibrate_with_advanced_model regAll dataFull =
      .ok [("calibrated_pm25", .num 330), ("source", .str "advanced_model"),
           ("model_version", .str "3.0"), ("confidence", .str "very_high"),
           ("features_used", .num 2)] := by
  have h4 : lookup4 dataFull = some (300, 25, 35, 0) := by
    simp [dataFull, lookup4, lookupKey]
  have hC := C9_response_normalization regAll dataFull 300 25 35 0 h4
  refine ⟨?_, ?_, ?_⟩
  · have h := hC.1 (fun xs => xs.sum) (fun xs => xs) rfl rfl
    rw [h]
    norm_num [round2, roundHalfEven]
  · have hpred : emOne.predict (.pylist [[300, 25, 35, 0]]) = some [360] := by
      simp [emOne, EnsembleModel.predict, EnsembleModel.scaledInput, lookupW]
      norm_num
    have h := hC.2.1 emOne 360 [] rfl hpred
    rw [h]
    norm_num [round2, roundHalfEven, emOne]
  · have hall : allFeatures (advRowSingle ⟨300, 25, 35, 0⟩)
        ["satellite_aod", "avg_temp"] = some [300, 30] := by
      simp [allFeatures, FeatRow.getCol, advRowSingle, zfill]
      norm_num
    have h := hC.2.2 (fun xs => xs.sum) (fun xs => xs)
      ["satellite_aod", "avg_temp"] (advRowSingle ⟨300, 25, 35, 0⟩) [300, 30]
      rfl rfl rfl (create_single ⟨300, 25, 35, 0⟩) hall
    rw [h]
    norm_num [round2, roundHalfEven]

/-! ## C2: the training-time weight derivation -/

lemma list_all_congr {α : Type _} (l : List α) (f g : α → Bool)
    (h : ∀ x ∈ l, f x = g x) : l.all f = l.all g := by
  induction l with
  | nil => rfl
  | cons x xs ih => simp_all

lemma list_map_congr {α β : Type _} (l : List α) (f g : α → β)
    (h : ∀ x ∈ l, f x = g x) : l.map f = l.map g := by
  induction l with
  | nil => rfl
  | cons x xs ih => simp_all

lemma sum_map_snd_div (l : List (String × ℚ)) (c : ℚ) :
    ((l.map (fun p => (p.1, p.2 / c))).map (fun p => p.2)).sum =
      ((l.map (fun p => p.2)).sum) / c := by
  induction l with
  | nil => simp
  | cons x xs ih =>
      simp [List.map_map, Function.comp] at ih ⊢
      rw [ih, add_div]

lemma sum_map_snd_const (l : List (String × MScore)) (c : ℚ) :
    ((l.map (fun p => (p.1, c))).map (fun p => p.2)).sum = l.length * c := by
  induction l with
  | nil => simp
  | cons x xs ih =>
      simp [List.map_map, Function.comp] at ih ⊢
      rw [ih]
      ring

/-- C2 counterexample: at the legitimate held-out score record
`{a: r2=1, b: r2=-1}` the best score is positive, the raw weights are
`{a: 1, b: -1}`, their total is 0, and the in-place renormalization
divides by zero — the code produces no weight map at all (ZeroDivisionError),
so the weight map does not sum to 1 for every score record. -/
theorem C2_counterexample :
    deriveEnsembleWeights [("a", ⟨1, 0⟩), ("b", ⟨-1, 0⟩)] = none := by
  norm_num [deriveEnsembleWeights, maxR2, rawWeights]

/-- C2 (amended): whenever the raw weight total is nonzero, the derived
weight map exists and sums to exactly 1 over the present members; when the
best score is ≤ 0 every learner gets the hard-coded 0.25 raw weight, which
renormalizes to the uniform 1/N; and the scenario `{a: r2=0.8, b: r2=0.4}`
yields exactly `{a: 2/3, b: 1/3}`. -/
theorem C2_weight_derivation :
    (∀ (scores : List (String × MScore)) (best : ℚ),
      maxR2 scores = some best →
      ((rawWeights scores best).map (fun p => p.2)).sum ≠ 0 →
      ∃ ws, deriveEnsembleWeights scores = some ws ∧
        (ws.map (fun p => p.2)).sum = 1) ∧
    (∀ (scores : List (String × MScore)) (best : ℚ),
      maxR2 scores = some best → best ≤ 0 →
      deriveEnsembleWeights scores =
        some (scores.map (fun p => (p.1, (1 : ℚ) / scores.length)))) ∧
    deriveEnsembleWeights [("a", ⟨4/5, 0⟩), ("b", ⟨2/5, 0⟩)] =
      some [("a", 2/3), ("b", 1/3)] := by
  refine ⟨fun scores best hmax htot => ?_, fun scores best hmax hle => ?_,
    by norm_num [deriveEnsembleWeights, maxR2, rawWeights]⟩
  · have hd : deriveEnsembleWeights scores =
        some ((rawWeights scores best).map (fun p =>
          (p.1, p.2 / ((rawWeights scores best).map (fun q => q.2)).sum))) := by
      simp only [deriveEnsembleWeights, hmax]
      rw [if_neg htot]
    rw [hd]
    refine ⟨_, rfl, ?_⟩
    have h := sum_map_snd_div (rawWeights scores best)
      (((rawWeights scores best).map (fun q => q.2)).sum)
    rw [h]
    exact div_self htot
  · have hlt : ¬ (0 : ℚ) < best := not_lt.mpr hle
    have hne : scores ≠ [] := by
      intro h
      rw [h] at hmax
      simp [maxR2] at hmax
    have hn : ((scores.length : ℚ)) ≠ 0 := by
      exact_mod_cast fun h => hne (List.length_eq_zero.mp (by exact_mod_cast h))
    have hraw : rawWeights scores best =
        scores.map (fun p => (p.1, (1/4 : ℚ))) := by
      simp [rawWeights, hlt]
    simp only [deriveEnsembleWeights, hmax]
    rw [hraw, sum_map_snd_const]
    rw [if_neg (mul_ne_zero hn (by norm_num))]
    congr 1
    rw [List.map_map]
    refine list_map_congr scores _ _ (fun p hp => ?_)
    simp only [Function.comp]
    congr 1
    field_simp

/-- Witness for C2 (amended): the first conjunct applied to the scenario
record produces a weight map summing to exactly 1. -/
theorem C2_weight_derivation_witness :
    ∃ ws, deriveEnsembleWeights [("a", ⟨4/5, 0⟩), ("b", ⟨2/5, 0⟩)] = some ws ∧
      (ws.map (fun p => p.2)).sum = 1 :=
  C2_weight_derivation.1 [("a", ⟨4/5, 0⟩), ("b", ⟨2/5, 0⟩)] (4/5)
    (by norm_num [maxR2])
    (by norm_num [rawWeights])

/-! ## C3 and C7: the ensemble combiner -/

/-- An ensemble whose shared scaler divides every feature by 10 (so
scaling visibly changes the prediction of its sum-regressor member). -/
def emScaleTenth : EnsembleModel :=
  ⟨[("m", fun xs => xs.sum)], [("m", 1)], fun xs => xs.map (fun x => x / 10), none⟩

/-- C3 counterexample: the serving path hands `predict` a plain Python
list (no `.shape` attribute), so the unscaled 4-feature tuple is NOT
transformed by the shared scaler — the code returns the weighted sum on
the raw row (40), while the claimed scale-first reading returns 4. -/
theorem C3_counterexample :
    emScaleTenth.predict (.pylist [[10, 10, 10, 10]]) = some [40] ∧
    emScaleTenth.predictSpecWords (.pylist [[10, 10, 10, 10]]) = some [4] ∧
    ((40 : ℚ) ≠ 4) := by
  refine ⟨?_, ?_, by norm_num⟩
  · simp [emScaleTenth, EnsembleModel.predict, EnsembleModel.scaledInput, lookupW]
    norm_num
  · simp [emScaleTenth, EnsembleModel.predictSpecWords, lookupW]
    norm_num

/-- C3 (amended): `predict` scales its input iff the input carries a
`.shape` attribute of width 4 (a numpy array of 4 columns); plain-list
rows — which is what the serving handler passes — are used unscaled; in
every case the per-row result is Σ_name weight[name]·prediction[name]
over the base learners present in the model map. -/
theorem C3_predict_scaling (em : EnsembleModel) (rows : List (List ℚ))
    (hw : em.models.all (fun nm => (lookupW em.weights nm.1).isSome) = true) :
    em.predict (.pylist rows) =
      some (rows.map (fun r =>
        (em.models.map (fun nm =>
          (lookupW em.weights nm.1).getD 0 * nm.2 r)).sum)) ∧
    (((rows.head?).map List.length).getD 0 = 4 →
      em.predict (.array rows) =
        some ((rows.map em.scaler).map (fun r =>
          (em.models.map (fun nm =>
            (lookupW em.weights nm.1).getD 0 * nm.2 r)).sum))) ∧
    (((rows.head?).map List.length).getD 0 ≠ 4 →
      em.predict (.array rows) =
        some (rows.map (fun r =>
          (em.models.map (fun nm =>
            (lookupW em.weights nm.1).getD 0 * nm.2 r)).sum))) := by
  refine ⟨?_, fun h => ?_, fun h => ?_⟩
  · simp [EnsembleModel.predict, EnsembleModel.scaledInput, hw]
  · simp [EnsembleModel.predict, EnsembleModel.scaledInput, hw, h]
  · simp [EnsembleModel.predict, EnsembleModel.scaledInput, hw, h]

/-- Witness for C3 (amended): the plain-list serving input of the
counterexample goes through unscaled. -/
theorem C3_predict_scaling_witness :
    emScaleTenth.predict (.pylist [[10, 10, 10, 10]]) =
      some ([[(10 : ℚ), 10, 10, 10]].map (fun r =>
        (emScaleTenth.models.map (fun nm =>
          (lookupW emScaleTenth.weights nm.1).getD 0 * nm.2 r)).sum)) :=
  (C3_predict_scaling emScaleTenth [[10, 10, 10, 10]]
    (by simp [emScaleTenth, lookupW])).1

/-- An ensemble whose weight map references a member `b` that is absent
from its model map. -/
def emGhost : EnsembleModel :=
  ⟨[("a", fun _ => (10 : ℚ))], [("a", 1/2), ("b", 1/2)], fun xs => xs, none⟩

/-- The same ensemble with the ghost entry dropped from the weight map. -/
def emGhostTrim : EnsembleModel :=
  ⟨[("a", fun _ => (10 : ℚ))], [("a", 1/2)], fun xs => xs, none⟩

/-- C7 counterexample: a weight map referencing the absent learner `b`
does NOT make `predict` fail — the sum only iterates over the model map,
so the request succeeds and silently produces 1/2 · 10 = 5, a blend that
ignores the referenced learner. -/
theorem C7_counterexample :
    emGhost.predict (.pylist [[0, 0, 0, 0]]) = some [5] ∧
    emGhost.predict (.pylist [[0, 0, 0, 0]]) ≠ none := by
  have h : emGhost.predict (.pylist [[0, 0, 0, 0]]) = some [5] := by
    simp [emGhost, EnsembleModel.predict, EnsembleModel.scaledInput, lookupW]
    norm_num
  exact ⟨h, by rw [h]; simp⟩

/-- C7 (amended): `predict` fails (KeyError) exactly when a learner in the
MODEL map has no entry in the weight map; weight-map names absent from the
model map are silently ignored — two ensembles with the same model map and
scaler whose weight maps agree on the model-map names predict
identically. -/
theorem C7_missing_member (em : EnsembleModel) (X : PyRows) :
    (em.predict X = none ↔ ∃ nm ∈ em.models, lookupW em.weights nm.1 = none) ∧
    (∀ em' : EnsembleModel, em'.models = em.models → em'.scaler = em.scaler →
      (∀ nm ∈ em.models, lookupW em'.weights nm.1 = lookupW em.weights nm.1) →
      em'.predict X = em.predict X) := by
  constructor
  · by_cases hc : em.models.all
        (fun nm => (lookupW em.weights nm.1).isSome) = true
    · constructor
      · intro h
        simp [EnsembleModel.predict, hc] at h
      · rintro ⟨nm, hmem, hnone⟩
        rw [List.all_eq_true] at hc
        have h2 := hc nm hmem
        rw [hnone] at h2
        simp at h2
    · have hc' : em.models.all
          (fun nm => (lookupW em.weights nm.1).isSome) = false := by
        cases hb : em.models.all (fun nm => (lookupW em.weights nm.1).isSome)
        · rfl
        · exact absurd hb hc
      constructor
      · intro _
        obtain ⟨nm, hmem, hns⟩ := List.all_eq_false.mp hc'
        exact ⟨nm, hmem, Option.not_isSome_iff_eq_none.mp hns⟩
      · intro _
        simp [EnsembleModel.predict, hc']
  · intro em' hm hs hwts
    have hsc : em'.scaledInput X = em.scaledInput X := by
      unfold EnsembleModel.scaledInput
      rw [hs]
    have h1 : (em.models.all fun nm => (lookupW em'.weights nm.1).isSome) =
        (em.models.all fun nm => (lookupW em.weights nm.1).isSome) :=
      list_all_congr _ _ _ (fun x hx => by rw [hwts x hx])
    have h2 : ∀ r : List ℚ,
        (em.models.map fun nm => (lookupW em'.weights nm.1).getD 0 * nm.2 r) =
        (em.models.map fun nm => (lookupW em.weights nm.1).getD 0 * nm.2 r) :=
      fun r => list_map_congr _ _ _ (fun x hx => by rw [hwts x hx])
    unfold EnsembleModel.predict
    rw [hsc, hm, h1]
    simp only [h2]

/-- Witness for C7 (amended): dropping the ghost `b` entry from the weight
map leaves the prediction unchanged. -/
theorem C7_missing_member_witness :
    emGhostTrim.predict (.pylist [[0, 0, 0, 0]]) =
      emGhost.predict (.pylist [[0, 0, 0, 0]]) :=
  (C7_missing_member emGhost (.pylist [[0, 0, 0, 0]])).2 emGhostTrim rfl rfl
    (by
      intro nm hmem
      simp only [emGhost] at hmem
      rcases List.mem_singleton.mp hmem with rfl
      simp [emGhost, emGhostTrim, lookupW])

/-! ## C4 and C8: single-observation degeneracy and synthetic humidity -/

lemma range_map_getD {α β : Type _} (l : List α) (d : α) (f : α → β) :
    (List.range l.length).map (fun i => f (l.getD i d)) = l.map f := by
  apply List.ext_getElem
  · simp
  · intro i h1 h2
    simp only [List.getElem_map, List.getElem_range]
    rw [List.getD_eq_getElem l d (by simpa using h2)]

/-- The humidity column of the derived frame, in closed form. -/
lemma humidity_col (rows : List ObsRow) :
    (create_advanced_features rows).map (fun fr => fr.humidity) =
      rows.map (fun o => humiditySynth o.max_temp o.rainfall) := by
  unfold create_advanced_features
  rw [List.map_map]
  simp only [Function.comp]
  exact range_map_getD rows ⟨0, 0, 0, 0⟩
    (fun o => humiditySynth o.max_temp o.rainfall)

/-- C4 counterexample: for the single observation
`(aod=300, min_temp=25, max_temp=35, rainfall=0)` with no preceding
history, the lag feature `aod_lag_1` does NOT degenerate to the current
AOD value: in the derived frame it is still undefined (pandas NaN — the
row-wise bfill/ffill has nothing to fill a single row with), the
consumption-boundary zero-fill turns it into 0, and 0 ≠ 300; the rolling
standard-deviation (volatility) features are likewise undefined, not the
current value. -/
theorem C4_counterexample :
    (create_advanced_features [⟨300, 25, 35, 0⟩]).map
        (fun fr => fr.aod_lag_1) = [none] ∧
    (create_advanced_features [⟨300, 25, 35, 0⟩]).map
        (fun fr => zfill fr.aod_lag_1) = [0] ∧
    ((0 : ℚ) ≠ 300) ∧
    (create_advanced_features [⟨300, 25, 35, 0⟩]).map
        (fun fr => fr.aod_volatility_3h) = [none] := by
  refine ⟨?_, ?_, by norm_num, ?_⟩ <;>
    simp [create_single, advRowSingle, zfill]

/-- C4 (amended): deriving features from one Observation with no history
is total (one output row, no error); the rolling MEANS degenerate to the
current AOD / average-temperature value (window of one); but the lag
features and the rolling standard deviations are undefined on a single
row and are only zero-filled to 0 at the consumption boundary — they do
not equal the current values. -/
theorem C4_single_observation (o : ObsRow) :
    create_advanced_features [o] = [advRowSingle o] ∧
    (advRowSingle o).aod_rolling_3 = o.satellite_aod ∧
    (advRowSingle o).aod_rolling_6 = o.satellite_aod ∧
    (advRowSingle o).aod_rolling_12 = o.satellite_aod ∧
    (advRowSingle o).aod_rolling_24 = o.satellite_aod ∧
    (advRowSingle o).temp_rolling_3 = (o.max_temp + o.min_temp) / 2 ∧
    (advRowSingle o).temp_rolling_6 = (o.max_temp + o.min_temp) / 2 ∧
    (advRowSingle o).temp_rolling_12 = (o.max_temp + o.min_temp) / 2 ∧
    (advRowSingle o).temp_rolling_24 = (o.max_temp + o.min_temp) / 2 ∧
    (advRowSingle o).aod_lag_1 = none ∧
    (advRowSingle o).aod_lag_2 = none ∧
    (advRowSingle o).aod_lag_3 = none ∧
    (advRowSingle o).aod_lag_6 = none ∧
    (advRowSingle o).aod_lag_12 = none ∧
    (advRowSingle o).aod_lag_24 = none ∧
    (advRowSingle o).aod_volatility_3h = none ∧
    (advRowSingle o).temp_volatility_6h = none ∧
    zfill (advRowSingle o).aod_lag_1 = 0 ∧
    zfill (advRowSingle o).aod_volatility_3h = 0 ∧
    zfill (advRowSingle o).temp_volatility_6h = 0 := by
  refine ⟨create_single o, ?_⟩
  simp [advRowSingle, zfill]

/-- Witness for C4 (amended): the canonical observation instantiated. -/
theorem C4_single_observation_witness :
    create_advanced_features [⟨300, 25, 35, 0⟩] =
      [advRowSingle ⟨300, 25, 35, 0⟩] ∧
    (advRowSingle ⟨300, 25, 35, 0⟩).aod_rolling_3 = 300 :=
  ⟨(C4_single_observation ⟨300, 25, 35, 0⟩).1,
   (C4_single_observation ⟨300, 25, 35, 0⟩).2.1⟩

/-- C8: when the input carries no humidity column, humidity is synthesized
for every row as clip(50 − 1.5·(max_temp − 25) + 2·rainfall, 20, 90), and
the synthesized value always lies in [20, 90]. -/
theorem C8_humidity_synthesis (rows : List ObsRow) :
    ((create_advanced_features rows).map (fun fr => fr.humidity) =
      rows.map (fun o =>
        min (max (50 - (3/2 : ℚ) * (o.max_temp - 25) + 2 * o.rainfall) 20) 90)) ∧
    (∀ fr ∈ create_advanced_features rows,
      20 ≤ fr.humidity ∧ fr.humidity ≤ 90) := by
  have hfor : ∀ mx r : ℚ, humiditySynth mx r =
      min (max (50 - (3/2 : ℚ) * (mx - 25) + 2 * r) 20) 90 := by
    intro mx r
    unfold humiditySynth
    congr 2
    ring
  constructor
  · rw [humidity_col rows]
    exact List.map_congr_left (fun o _ => hfor o.max_temp o.rainfall)
  · intro fr hmem
    have hm : fr.humidity ∈
        (create_advanced_features rows).map (fun fr => fr.humidity) :=
      List.mem_map_of_mem _ hmem
    rw [humidity_col rows] at hm
    obtain ⟨o, _, ho⟩ := List.mem_map.mp hm
    rw [← ho]
    unfold humiditySynth
    exact ⟨le_min (le_max_right _ _) (by norm_num), min_le_right _ _⟩

/-- Witness for C8: the canonical observation's synthesized humidity obeys
the clip bounds. -/
theorem C8_humidity_synthesis_witness :
    20 ≤ (advRowSingle ⟨300, 25, 35, 0⟩).humidity ∧
      (advRowSingle ⟨300, 25, 35, 0⟩).humidity ≤ 90 :=
  (C8_humidity_synthesis [⟨300, 25, 35, 0⟩]).2 (advRowSingle ⟨300, 25, 35, 0⟩)
    (by rw [create_single]; exact List.mem_singleton.mpr rfl)

end AodCal
